import Mathlib

/-!
Shallow embedding of the `ndrechslermacrocharts` data-pipeline scripts
(`scripts/utils.py`, `scripts/build_m3_map.py`, `scripts/build_search_index.py`,
`scripts/fetch_m3.py`, `scripts/fetch_qss.py`, `scripts/run_scheduled.py`,
`scripts/fetch_all.py`), together with theorems checking the specification's
claims about them.

Conventions of the embedding:
- Python strings are Lean `String`s; where character-level work is needed
  (slicing, splitting, substring search) we work on `String.toList`, which
  matches Python's code-point semantics.
- Python `dict` literals and JSON-config dictionaries are association lists
  `List (String × _)` read through `List.lookup` (all embedded literals have
  pairwise-distinct keys, so first-match lookup agrees with Python's dict).
- Python truthiness of an optional string (`if not naics_name: ...`) is
  `pyTruthy`: a value is truthy iff it is present and non-empty.
- Python's stable `list.sort` is modelled by `List.insertionSort`, which is
  also stable; a stable sort's output is uniquely determined by the key
  order and the input order, so the two agree extensionally.
- I/O (HTTP, file reads/writes, prints) is made explicit: fetched data,
  loaded documents and request outcomes are inputs; written documents and
  emitted index entries are the returned values. Console printing and the
  byte-size statistics have no observable effect on the outputs and are
  not modelled.
-/

/-! ### Generic string helpers (Python semantics over code points) -/

/-- Lexicographic `≤` on code-point lists: Python's `str` comparison. -/
def lexLe : List Char → List Char → Bool
  | [], _ => true
  | _ :: _, [] => false
  | a :: as, b :: bs =>
    if a.toNat < b.toNat then true
    else if b.toNat < a.toNat then false
    else lexLe as bs

/-- Python `pat in hay` for strings: substring containment. -/
def containsSub (hay pat : List Char) : Bool :=
  match hay with
  | [] => pat.isEmpty
  | _ :: rest => pat.isPrefixOf hay || containsSub rest pat

/-- Python `s.split(sep, 1)[0]` for a single-character separator:
the characters before the first occurrence (the whole string if absent). -/
def splitHead (sep : Char) (s : String) : String :=
  String.mk (s.toList.takeWhile (fun c => c ≠ sep))

/-- Python `s[:n]` (string slice from the start). -/
def strTake (s : String) (n : Nat) : String :=
  String.mk (s.toList.take n)

/-- Python `s[a:b]` (string slice). -/
def strSlice (s : String) (a b : Nat) : String :=
  String.mk ((s.toList.drop a).take (b - a))

/-- Python `len(s)` for a string. -/
def strLen (s : String) : Nat := s.toList.length

/-- Python truthiness of an optional string: `None` and `""` are falsy. -/
def pyTruthy (o : Option String) : Bool := !(o.getD "").toList.isEmpty

/-- Python `s.isdigit()` (restricted to ASCII digits, which is all the
pipeline's identifiers use): non-empty and all characters are digits. -/
def pyIsDigit (s : String) : Bool := !s.toList.isEmpty && s.toList.all (fun c => c.isDigit)

/-- Python `re.sub(r'[A-Za-z]+$', '', s)`: strip trailing ASCII letters. -/
def stripTrailingAlpha (s : String) : String :=
  String.mk (((s.toList.reverse).dropWhile (fun c => c.isAlpha)).reverse)

/-! ### `scripts/utils.py` — the shared HTTP retry helper

`retry_request` issues a GET and calls `raise_for_status`; any raised
`requests.RequestException` (which includes both transport errors and the
`HTTPError` raised by `raise_for_status` on a 4xx/5xx response) is caught,
and the request is retried with `time.sleep(delay * (attempt + 1))` between
attempts, the failure of the final attempt being re-raised.

The embedding makes the attempt outcomes an input `f : Nat → Except ReqError α`
(`f i` is what the `i`-th `requests.get` + `raise_for_status` does), and
returns the final outcome together with the list of sleep durations, in
order. A `none` result corresponds to Python's implicit `return None` when
the `for attempt in range(max_retries)` loop body never runs. -/

/-- An exception caught by `retry_request`'s `except` clause: any
`requests.RequestException`, carrying the HTTP status when it is an
`HTTPError` from `raise_for_status`. -/
structure ReqError where
  msg : String
  status : Option Nat
deriving DecidableEq

/-- Is this the `HTTPError` of a 4xx (client-error) response? -/
def is4xx (e : ReqError) : Bool :=
  match e.status with
  | some s => decide (400 ≤ s ∧ s < 500)
  | none => false

/-- The retry loop of `retry_request`, iterating over the remaining attempt
indices (`List.range max_retries`).  For an attempt index drawn from
`range max_retries`, Python's `attempt < max_retries - 1` holds exactly when
further indices remain, i.e. when `rest` is non-empty. -/
def retryGo {α : Type} (f : Nat → Except ReqError α) (delay : Nat) :
    List Nat → Option (Except ReqError α) × List Nat
  | [] => (none, [])
  | i :: rest =>
    match f i with
    | .ok r => (some (.ok r), [])
    | .error e =>
      if rest.isEmpty then (some (.error e), [])
      else
        let r2 := retryGo f delay rest
        (r2.1, delay * (i + 1) :: r2.2)

/-- `utils.retry_request` (defaults `max_retries=3`, `delay=2`). -/
def retry_request {α : Type} (f : Nat → Except ReqError α)
    (max_retries : Nat := 3) (delay : Nat := 2) :
    Option (Except ReqError α) × List Nat :=
  retryGo f delay (List.range max_retries)

/-! ### Time-series data model (the `{metadata, series[]}` JSON documents) -/

/-- One observation point `{date, value}`.  Exact numeric values are
irrelevant to every claim, so `value` is carried as an optional integer
(`null` is `none`). -/
structure Obs where
  date : String
  value : Option Int
deriving DecidableEq

/-- A series as written by a fetcher. -/
structure Series where
  id : String
  name : String
  display_order : Nat
  data : List Obs
deriving DecidableEq

/-- A series as read back by the index builder: the `name` key may be
absent (`series.get("name", sid)`). -/
structure RawSeries where
  id : String
  name : Option String
  data : List Obs
deriving DecidableEq

/-- A data document as read by the index builder (`data.get("series", [])`;
the metadata block is irrelevant to all claims). -/
structure Document where
  series : List RawSeries
deriving DecidableEq

/-- Date ordering used by the fetchers' `info["data"].sort(key=lambda d: d["date"])`. -/
def obsLe (a b : Obs) : Prop := lexLe a.date.toList b.date.toList = true

instance : DecidableRel obsLe := fun _ _ => instDecidableEqBool _ _

/-- Key ordering of `sorted(series_map.items())` (keys are pairwise distinct
in a Python dict, so only the key part of the tuple is ever compared). -/
def keyLe {β : Type} (a b : String × β) : Prop := lexLe a.1.toList b.1.toList = true

instance {β : Type} : DecidableRel (keyLe (β := β)) := fun _ _ => instDecidableEqBool _ _

/-- The `{name, data}` record accumulated in `series_map` by the fetchers. -/
structure SeriesInfo where
  name : String
  data : List Obs
deriving DecidableEq

/-- The series-list construction shared verbatim by `fetch_m3.run`
(lines 246-257) and `fetch_qss.run` (lines 103-111):

    for i, (key, info) in enumerate(sorted(series_map.items())):
        info["data"].sort(key=lambda d: d["date"])
        if len(info["data"]) < 2:
            continue
        series_list.append({"id": key, "name": info["name"],
                            "display_order": i, "data": info["data"]})
-/
def buildSeriesList (sm : List (String × SeriesInfo)) : List Series :=
  let sortedItems := List.insertionSort keyLe sm
  sortedItems.enum.filterMap fun p =>
    let d := List.insertionSort obsLe p.2.2.data
    if d.length < 2 then none
    else some { id := p.2.1, name := p.2.2.name, display_order := p.1, data := d }

/-! ### `scripts/build_m3_map.py` — the M3 code → NAICS crosswalk

The dictionary literal `m3_naics`, saved verbatim to `config/m3_naics_map.json`
and loaded by the index builder as `m3_map`.  The optional `"aggregate": True`
marker is never read by any consumer and is dropped from the embedding. -/

/-- An entry of the M3 → NAICS map (and, with the same shape, of the CES
establishment → industry map `config/ces_naics_map.json`). -/
structure MapEntry where
  naics : String
  name : String
deriving DecidableEq

/-- Pair-builder for map literals. -/
def me (k n nm : String) : String × MapEntry := (k, ⟨n, nm⟩)

/-- `build_m3_map.m3_naics` (all 140 entries; keys are pairwise distinct). -/
def m3_naics : List (String × MapEntry) := [
  me "11A" "3112" "Grain and Oilseed Milling",
  me "11B" "3115" "Dairy Product Manufacturing",
  me "11C" "3116,3117" "Animal Slaughtering/Processing, Seafood",
  me "11D" "311 (other)" "Other Food Manufacturing",
  me "11S" "311" "Food Products",
  me "12A" "3121" "Beverage Manufacturing",
  me "12B" "3122" "Tobacco Manufacturing",
  me "12S" "312" "Beverage and Tobacco Products",
  me "13A" "313" "Textile Mills",
  me "13S" "313" "Textile Mills",
  me "14A" "314" "Textile Product Mills",
  me "14S" "314" "Textile Product Mills",
  me "15A" "315" "Apparel Manufacturing",
  me "15S" "315" "Apparel",
  me "16A" "316" "Leather and Allied Products",
  me "16S" "316" "Leather and Allied Products",
  me "21A" "321991,321992" "Wood Building and Mobile Home Mfg",
  me "21B" "321 (other)" "Other Wood Product Manufacturing",
  me "21S" "321" "Wood Products",
  me "22A" "3221" "Pulp, Paper, and Paperboard Mills",
  me "22B" "32221" "Paperboard Container Manufacturing",
  me "22C" "3222 (other)" "Other Paper Manufacturing",
  me "22S" "322" "Paper Products",
  me "23A" "323" "Printing and Related Support Activities",
  me "23S" "323" "Printing",
  me "24A" "324110" "Petroleum Refineries",
  me "24B" "324121,324122" "Asphalt Paving and Roofing Materials",
  me "24C" "324191,324199" "Other Petroleum and Coal Products",
  me "24S" "324" "Petroleum and Coal Products",
  me "25A" "3253" "Pesticides, Fertilizers, Ag Chemicals",
  me "25B" "3254" "Pharmaceutical and Medicine Mfg",
  me "25C" "3255" "Paint, Coating, and Adhesive Mfg",
  me "25D" "325 (other)" "Other Chemical Products",
  me "25S" "325" "Chemical Products",
  me "26A" "32621" "Tire Manufacturing",
  me "26B" "326 (other)" "Other Plastics and Rubber Products",
  me "26S" "326" "Plastics and Rubber Products",
  me "27A" "327" "Nonmetallic Mineral Products",
  me "27S" "327" "Nonmetallic Mineral Products",
  me "31A" "3311,3312" "Iron and Steel Mills and Steel Products",
  me "31B" "3313,3314" "Alumina, Aluminum, and Nonferrous Metals",
  me "31C" "33151" "Ferrous Metal Foundries",
  me "31D" "33152" "Nonferrous Metal Foundries",
  me "31S" "331" "Primary Metals",
  me "32A" "3321" "Forging and Stamping",
  me "32B" "33221" "Cutlery and Handtool Mfg",
  me "32C" "3324" "Boiler, Tank, and Shipping Container Mfg",
  me "32D" "33291" "Metal Valve Manufacturing",
  me "32E" "33299" "Small Arms and Ordnance, Nondefense",
  me "32F" "33299" "Small Arms and Ordnance, Defense",
  me "32G" "332 (other)" "Other Fabricated Metal Products",
  me "32S" "332" "Fabricated Metal Products",
  me "33A" "333111" "Farm Machinery and Equipment",
  me "33B" "333112" "Lawn/Garden Tractor and Equipment",
  me "33C" "333120" "Construction Machinery",
  me "33D" "33313" "Mining, Oil and Gas Field Machinery",
  me "33E" "33324" "Industrial Machinery",
  me "33F" "333318" "Commercial and Service Industry Machinery",
  me "33G" "333314,333316" "Photographic Equipment",
  me "33H" "33341" "HVAC and Commercial Refrigeration Equipment",
  me "33I" "33351" "Metalworking Machinery",
  me "33J" "333611" "Turbine and Turbine Generator Set Units",
  me "33K" "333612,333613,333618" "Other Power Transmission Equipment",
  me "33L" "33391" "Pump and Compressor Mfg",
  me "33M" "33392" "Material Handling Equipment",
  me "33N" "33399" "All Other Machinery",
  me "33S" "333" "Machinery",
  me "34A" "334111" "Electronic Computer Mfg",
  me "34B" "334112" "Computer Storage Device Mfg",
  me "34C" "334118" "Other Computer Peripheral Equipment",
  me "34D" "33421,33422,33429" "Communications Equipment, Nondefense",
  me "34E" "33421,33422,33429" "Communications Equipment, Defense",
  me "34F" "334310" "Audio and Video Equipment",
  me "34G" "334413" "Semiconductor Mfg",
  me "34H" "33441 (other)" "Other Electronic Components",
  me "34I" "334511" "Search/Navigation Equipment, Nondefense",
  me "34J" "334511" "Search/Navigation Equipment, Defense",
  me "34K" "33451 (other)" "Measuring, Electromedical, Control Instruments",
  me "34L" "33461" "Magnetic and Optical Media Mfg",
  me "34S" "334" "Computers and Electronic Products",
  me "34X" "334" "Computers and Electronic Products Subtotal",
  me "35A" "3351" "Electric Lighting Equipment",
  me "35B" "3352" "Household Appliances",
  me "35C" "3353" "Electrical Equipment",
  me "35D" "33591" "Batteries",
  me "35E" "3359 (other)" "Other Electrical Equipment and Components",
  me "35S" "335" "Electrical Equipment and Components",
  me "36A" "336111" "Automobile Manufacturing",
  me "36B" "336112" "Light Truck and Utility Vehicle Mfg",
  me "36C" "336120" "Heavy Duty Truck Manufacturing",
  me "36D" "33621" "Motor Vehicle Body and Trailer Mfg",
  me "36E" "3363" "Motor Vehicle Parts Mfg",
  me "36F" "336411" "Aircraft Manufacturing, Nondefense",
  me "36G" "336411" "Aircraft Manufacturing, Defense",
  me "36H" "336412,336413" "Aircraft Engine and Parts, Nondefense",
  me "36I" "336412,336413" "Aircraft Engine and Parts, Defense",
  me "36K" "336510" "Railroad Rolling Stock",
  me "36L" "336611,336612" "Ship and Boat Building, Nondefense",
  me "36M" "336611,336612" "Ship and Boat Building, Defense",
  me "36P" "336414,336415,336419" "Guided Missile/Space Vehicle, Nondefense",
  me "36Q" "336414,336415,336419" "Guided Missile/Space Vehicle, Defense",
  me "36R" "336992" "Military Armored Vehicle/Tank, Nondefense",
  me "36T" "336992" "Military Armored Vehicle/Tank, Defense",
  me "36U" "336991,336999" "Other Transportation Equipment",
  me "36S" "336" "Transportation Equipment",
  me "36Z" "33621,3363" "Motor Vehicle Bodies, Parts, and Trailers",
  me "37A" "3371" "Household Furniture and Kitchen Cabinet",
  me "37B" "33712,33721" "Office and Institutional Furniture",
  me "37C" "3379" "Other Furniture Related Products",
  me "37S" "337" "Furniture and Related Products",
  me "39A" "33911" "Medical Equipment and Supplies",
  me "39B" "33992,33993" "Sporting/Athletic Goods, Doll/Toy/Game",
  me "39C" "33994" "Office Supplies (except Paper)",
  me "39D" "339 (other)" "Other Miscellaneous Manufacturing",
  me "39S" "339" "Miscellaneous Manufacturing",
  me "MTM" "31-33" "Total Manufacturing",
  me "MDM" "31-33 (durable)" "Durable Goods",
  me "MNM" "31-33 (nondurable)" "Nondurable Goods",
  me "MXT" "31-33 ex 336" "Manufacturing excl. Transportation",
  me "MXD" "31-33 ex defense" "Manufacturing excl. Defense",
  me "DXT" "durable ex 336" "Durable Goods excl. Transportation",
  me "DXD" "durable ex defense" "Durable Goods excl. Defense",
  me "TCG" "composite" "Capital Goods",
  me "NDE" "composite" "Nondefense Capital Goods",
  me "NXA" "composite" "Nondefense Capital Goods excl. Aircraft",
  me "DEF" "composite" "Defense Capital Goods",
  me "CDG" "composite" "Consumer Durable Goods",
  me "CNG" "composite" "Consumer Nondurable Goods",
  me "COG" "composite" "Consumer Goods",
  me "MVP" "3361,3362,3363" "Motor Vehicles and Parts",
  me "BTP" "33621,3363" "Motor Vehicle Bodies, Trailers, Parts",
  me "NAP" "336411,336412,336413" "Nondefense Aircraft and Parts",
  me "DAP" "336411,336412,336413" "Defense Aircraft and Parts",
  me "ITI" "composite" "Information Technology",
  me "CRP" "33411" "Computers and Related Products",
  me "CMS" "composite" "Construction Materials and Supplies",
  me "ODG" "321,327,337,339" "Other Durable Goods",
  me "TGP" "33361" "Turbines/Generators/Power Transmission",
  me "MTU" "composite" "Manufacturing with Unfilled Orders",
  me "ANM" "3313,3314,33152" "Aluminum and Nonferrous Metal Products"]

/-! ### `scripts/build_search_index.py` — resolvers and index assembly -/

/-- `build_search_index.NAICS_SECTORS`: standard 2-digit NAICS sector names. -/
def NAICS_SECTORS : List (String × String) := [
  ("11", "Agriculture, Forestry, Fishing and Hunting"),
  ("21", "Mining, Quarrying, and Oil and Gas Extraction"),
  ("22", "Utilities"),
  ("23", "Construction"),
  ("31", "Manufacturing"),
  ("32", "Manufacturing"),
  ("33", "Manufacturing"),
  ("42", "Wholesale Trade"),
  ("44", "Retail Trade"),
  ("45", "Retail Trade"),
  ("48", "Transportation and Warehousing"),
  ("49", "Transportation and Warehousing"),
  ("51", "Information"),
  ("52", "Finance and Insurance"),
  ("53", "Real Estate and Rental and Leasing"),
  ("54", "Professional, Scientific, and Technical Services"),
  ("55", "Management of Companies and Enterprises"),
  ("56", "Administrative and Support and Waste Management"),
  ("61", "Educational Services"),
  ("62", "Health Care and Social Assistance"),
  ("71", "Arts, Entertainment, and Recreation"),
  ("72", "Accommodation and Food Services"),
  ("81", "Other Services (except Public Administration)"),
  ("92", "Public Administration")]

/-- One page descriptor of `DATA_FILE_PAGES`.  The JSON key `"section"` is a
Lean keyword and is embedded as the field `sectionTag`. -/
structure PageInfo where
  page : String
  pageLabel : String
  sectionTag : String
  sectionLabel : String
deriving DecidableEq

/-- Builder for a `PageInfo` literal (page, pageLabel, section, sectionLabel). -/
def pg (p pl sec secl : String) : PageInfo := ⟨p, pl, sec, secl⟩

/-- The page list declared for `"m3/m3.json"` in `DATA_FILE_PAGES`. -/
def m3Pages : List PageInfo :=
  [pg "m3/index.html" "M3 Survey" "M3" "M3 - Shipments, Inventories & Orders"]

/-- `build_search_index.DATA_FILE_PAGES`: data file → pages showing it. -/
def DATA_FILE_PAGES : List (String × List PageInfo) := [
  ("ces/employees.json",
    [pg "ces/employees_yoy.html" "Employees YoY" "CES" "Current Employment Statistics",
     pg "ces/employees_long.html" "Employees (Long)" "CES" "Current Employment Statistics"]),
  ("ces/employees_pbs.json",
    [pg "ces/employees_pbs.html" "Prof. & Business Services" "CES" "Current Employment Statistics"]),
  ("ces/payrolls.json",
    [pg "ces/payrolls.html" "Aggregate Payrolls" "CES" "Current Employment Statistics"]),
  ("m3/m3.json", m3Pages),
  ("qss/qss.json",
    [pg "qss/index.html" "Quarterly Services Survey" "QSS" "Quarterly Services Survey"]),
  ("wholesale/wholesale_sales.json",
    [pg "wholesale/sales.html" "Wholesale Sales" "Wholesale" "Monthly Wholesale Trade"]),
  ("wholesale/wholesale_inventory.json",
    [pg "wholesale/inventory.html" "Wholesale Inventories" "Wholesale" "Monthly Wholesale Trade"]),
  ("wholesale/wholesale_ratio.json",
    [pg "wholesale/ratio.html" "Wholesale I/S Ratio" "Wholesale" "Monthly Wholesale Trade"]),
  ("construction/construction.json",
    [pg "construction/index.html" "Construction Spending" "Construction" "Construction Spending"]),
  ("industrial_production/industrial_production.json",
    [pg "industrial_production/index.html" "Industrial Production" "IP" "Industrial Production"]),
  ("unemployment/unemployment.json",
    [pg "unemployment/index.html" "Unemployment by Industry" "Unemployment" "Unemployment by Industry"]),
  ("nipa/1bu.json", [pg "nipa/1bu.html" "1BU - Mfg & Trade Inventories" "NIPA" "NIPA Data"]),
  ("nipa/2bu.json", [pg "nipa/2bu.html" "2BU - Mfg & Trade Sales" "NIPA" "NIPA Data"]),
  ("nipa/2_4_4u.json", [pg "nipa/2_4_4u.html" "2.4.4U - PCE Deflator" "NIPA" "NIPA Data"]),
  ("nipa/2_4_5u.json", [pg "nipa/2_4_5u.html" "2.4.5U - Nominal Spending" "NIPA" "NIPA Data"]),
  ("nipa/2_4_6u.json", [pg "nipa/2_4_6u.html" "2.4.6U - Real Spending" "NIPA" "NIPA Data"]),
  ("nipa/3bu.json", [pg "nipa/3bu.html" "3BU - Inventory-Sales Ratio" "NIPA" "NIPA Data"]),
  ("nipa/3_3.json", [pg "nipa/3_3.html" "3.3 - State & Local Govt" "NIPA" "NIPA Data"]),
  ("nipa/4_2_5b.json", [pg "nipa/4_2_5b.html" "4.2.5B - Net Exports" "NIPA" "NIPA Data"]),
  ("nipa/4_2_6b.json", [pg "nipa/4_2_6b.html" "4.2.6B - Real Imports" "NIPA" "NIPA Data"]),
  ("nipa/5_3_5.json", [pg "nipa/5_3_5.html" "5.3.5 - Nonresidential Investment" "NIPA" "NIPA Data"]),
  ("nipa/5_5_5u.json", [pg "nipa/5_5_5u.html" "5.5.5U - Equipment Spending" "NIPA" "NIPA Data"]),
  ("nipa/5_7_5bu1.json", [pg "nipa/5_7_5bu1.html" "5.7.5BU1 - Private Inventories" "NIPA" "NIPA Data"]),
  ("fed_surveys/fed_mfg.json",
    [pg "fed_surveys/manufacturing.html" "Manufacturing Surveys" "FedSurveys" "Fed Regional Surveys"]),
  ("fed_surveys/fed_svc.json",
    [pg "fed_surveys/services.html" "Services Surveys" "FedSurveys" "Fed Regional Surveys"])]

/-- `M3_EXCLUDE.search(sid)` for the regex `_(MPC|IS)`: the identifier
contains `"_MPC"` or `"_IS"` as a substring (the regex is unanchored, so
`re.search` succeeds exactly on those substrings). -/
def m3ExcludeMatch (sid : String) : Bool :=
  containsSub sid.toList "_MPC".toList || containsSub sid.toList "_IS".toList

/-- `build_search_index.resolve_naics_ces`.  `series_id[3:11]` is looked up
in the establishment → industry map; `if not entry or entry["naics"] == "-"`
yields `(None, None)`. -/
def resolve_naics_ces (series_id : String) (ces_map : List (String × MapEntry)) :
    Option String × Option String :=
  if strLen series_id < 11 then (none, none)
  else
    let est_code := strSlice series_id 3 11
    match ces_map.lookup est_code with
    | none => (none, none)
    | some entry =>
      if entry.naics = "-" then (none, none)
      else (some entry.naics, some entry.name)

/-- `build_search_index.resolve_naics_m3`.  `series_id.split("_", 1)` is
never empty in Python, so the `if not parts` guard is dead and `code` is the
part before the first underscore. -/
def resolve_naics_m3 (series_id : String) (m3_map : List (String × MapEntry)) :
    Option String × Option String :=
  let code := splitHead '_' series_id
  match m3_map.lookup code with
  | none => (none, none)
  | some entry =>
    let naics := entry.naics
    if naics = "composite" ∨ naics = "-" ∨
        naics.toList.contains '(' ∨ naics.toList.contains '-' then
      (none, some entry.name)
    else
      (some (splitHead ',' naics), some entry.name)

/-- `build_search_index.resolve_naics_wholesale`: the part before the first
underscore, if it is all digits. -/
def resolve_naics_wholesale (series_id : String) : Option String :=
  let code := splitHead '_' series_id
  if pyIsDigit code then some code else none

/-- `build_search_index.resolve_naics_qss`: strip trailing letters from the
part before the first underscore; `if naics and naics != "000000"`. -/
def resolve_naics_qss (series_id : String) : Option String :=
  let cat := splitHead '_' series_id
  let naics := stripTrailingAlpha cat
  if !naics.toList.isEmpty && naics ≠ "000000" then some naics else none

/-- One record of the emitted `search_index.json` array.  The JSON key
`"section"` is embedded as `sectionTag`; `naics`/`naicsName` are `none`
when the optional keys are absent. -/
structure Entry where
  id : String
  name : String
  sectionTag : String
  sectionLabel : String
  page : String
  pageLabel : String
  dataFile : String
  naics : Option String
  naicsName : Option String
deriving DecidableEq

/-- The family dispatch of `build_search_index.run` (lines 266-273):
`(naics, naics_name)` as returned by the section's resolver. -/
def resolveBySection (sec : String) (ces_map m3_map : List (String × MapEntry))
    (sid : String) : Option String × Option String :=
  if sec = "CES" then resolve_naics_ces sid ces_map
  else if sec = "M3" then resolve_naics_m3 sid m3_map
  else if sec = "Wholesale" then (resolve_naics_wholesale sid, none)
  else if sec = "QSS" then (resolve_naics_qss sid, none)
  else (none, none)

/-- `run`'s first name fallback (lines 275-277):
`if not naics_name: naics_name = name`. -/
def fallbackBase (resolved : Option String) (name : String) : String :=
  if pyTruthy resolved then resolved.getD "" else name

/-- `run`'s sector-name fallback (lines 279-283): when a code was resolved
but `naics_name` is still just the display name, replace it by the 2-digit
sector name if the sector is known (`naics[:2] in NAICS_SECTORS`). -/
def fallbackName (naics resolved : Option String) (name : String) : String :=
  let nn1 := fallbackBase resolved name
  if pyTruthy naics ∧ nn1 = name then
    match NAICS_SECTORS.lookup (strTake (naics.getD "") 2) with
    | some sector_name => sector_name
    | none => nn1
  else nn1

/-- The per-series classification fields of `build_search_index.run`
(lines 262-283 plus the `if naics:` guard at lines 299-301): resolve
`(naics, naics_name)` by source family, apply the two name fallbacks, and
keep the two optional entry fields exactly when `naics` is truthy. -/
def resolveEntryFields (sec : String) (ces_map m3_map : List (String × MapEntry))
    (sid name : String) : Option String × Option String :=
  let r := resolveBySection sec ces_map m3_map sid
  if pyTruthy r.1 then (r.1, some (fallbackName r.1 r.2 name)) else (none, none)

/-- The entry record built for one (series, page) pair. -/
def mkEntry (dataFile sid name : String) (fields : Option String × Option String)
    (p : PageInfo) : Entry :=
  { id := sid, name := name,
    sectionTag := p.sectionTag, sectionLabel := p.sectionLabel,
    page := p.page, pageLabel := p.pageLabel,
    dataFile := dataFile, naics := fields.1, naicsName := fields.2 }

/-- The body of `build_search_index.run`'s inner `for series in ...` loop:
skip M3-excluded identifiers, resolve classification fields, and emit one
entry per page. -/
def processSeries (sec dataFile : String) (pages : List PageInfo)
    (ces_map m3_map : List (String × MapEntry)) (s : RawSeries) : List Entry :=
  let sid := s.id
  let name := s.name.getD sid
  if sec = "M3" ∧ m3ExcludeMatch sid then []
  else
    pages.map (mkEntry dataFile sid name (resolveEntryFields sec ces_map m3_map sid name))

/-- One iteration of `run`'s `for data_file, pages in DATA_FILE_PAGES.items()`
loop: load the document (skip when absent), dispatch on
`section = pages[0]["section"]`, and emit the entries of every series. -/
def processFile (docs : String → Option Document)
    (ces_map m3_map : List (String × MapEntry))
    (row : String × List PageInfo) : List Entry :=
  match docs row.1 with
  | none => []
  | some data =>
    let sec := ((row.2.head?).map (fun p => p.sectionTag)).getD ""
    data.series.flatMap (processSeries sec row.1 row.2 ces_map m3_map)

/-- The entry list accumulated by `build_search_index.run` before it is
written to `search_index.json`.  `docs` models `load_json`: the document a
data file holds, or `none` when the file is missing (or its JSON is falsy). -/
def runEntries (docs : String → Option Document)
    (ces_map m3_map : List (String × MapEntry)) : List Entry :=
  DATA_FILE_PAGES.flatMap (processFile docs ces_map m3_map)

/-- The loop step of `build_naics_names`: insert `naics ↦ naicsName` when
both fields are present and truthy and the code is not yet in the table
(first-write-wins).  Appending to an association list read by first-match
`lookup` models a Python dict insert of an absent key. -/
def nameStep (names : List (String × String)) (e : Entry) : List (String × String) :=
  match e.naics, e.naicsName with
  | some n, some nm =>
    if n ≠ "" ∧ nm ≠ "" ∧ (names.lookup n).isNone then names ++ [(n, nm)] else names
  | _, _ => names

/-- `build_search_index.build_naics_names`: start from the sector table and
fold the entries with `nameStep`. -/
def build_naics_names (all_entries : List Entry) : List (String × String) :=
  all_entries.foldl nameStep NAICS_SECTORS

/-- The name `nameStep` would contribute for code `c` from entry `e`, were
`c` still absent from the table. -/
def entryContribution (e : Entry) (c : String) : Option String :=
  match e.naics, e.naicsName with
  | some n, some nm => if n = c ∧ n ≠ "" ∧ nm ≠ "" then some nm else none
  | _, _ => none

/-! ### `scripts/run_scheduled.py` — the calendar-aware runner

`run` is modelled for the case where a calendar was loaded (the
`if not calendar` fallback to the full pipeline is outside this path).
The fetcher functions are identified by their display names (unique in
`FETCHER_MAP`); what each would do when called is an input
`outcome : String → Except String Unit` (`error` = the exception message it
raises), and likewise `postOutcome` for `post_process.run`.  The formatted
release-time string attached to skipped fetchers is display-only and is
dropped from the embedding. -/

/-- `run_scheduled.FETCHER_MAP`: calendar key → (release hour, release
minute, fetcher display names). -/
def FETCHER_MAP : List (String × (Nat × Nat) × List String) := [
  ("bls", ((8, 30), ["CES Employment Data", "Unemployment by Industry"])),
  ("bea", ((8, 30), ["NIPA Tables"])),
  ("census_m3", ((10, 0), ["M3 Survey"])),
  ("census_construction", ((10, 0), ["Construction Spending"])),
  ("census_wholesale", ((10, 0), ["Monthly Wholesale Trade"])),
  ("census_qss", ((10, 0), ["Quarterly Services Survey"])),
  ("fred_ip", ((9, 15), ["Industrial Production"]))]

/-- `run_scheduled.FETCH_DELAY_MINUTES`. -/
def FETCH_DELAY_MINUTES : Nat := 5

/-- Python tuple comparison `(h1, m1) >= (h2, m2)`. -/
def timeGe (a b : Nat × Nat) : Bool :=
  decide (b.1 < a.1) || (decide (a.1 = b.1) && decide (b.2 ≤ a.2))

/-- `run_scheduled.get_ready_fetchers`: for each calendar key releasing
today that has a fetcher mapping, compare the current Eastern time with the
release time plus `FETCH_DELAY_MINUTES` (with minute overflow into the
hour), and produce the ready fetcher names and the skipped fetcher names. -/
def get_ready_fetchers (schedules : List (String × List String))
    (today : String) (current_time : Nat × Nat) : List String × List String :=
  schedules.foldl
    (fun acc kv =>
      if kv.2.contains today then
        match FETCHER_MAP.lookup kv.1 with
        | some entry =>
          let rh := entry.1.1
          let rm := entry.1.2
          let fa0 : Nat × Nat := (rh, rm + FETCH_DELAY_MINUTES)
          let fetch_after : Nat × Nat :=
            if 60 ≤ fa0.2 then (fa0.1 + 1, fa0.2 - 60) else fa0
          if timeGe current_time fetch_after then (acc.1 ++ entry.2, acc.2)
          else (acc.1, acc.2 ++ entry.2)
        | none => acc
      else acc)
    ([], [])

/-- The observable outcome of a `run_scheduled.run` invocation. -/
structure SchedResult where
  ready : List String
  skipped : List String
  postRan : Bool
  errors : List (String × String)
  returnValue : Bool
deriving DecidableEq

/-- Error accumulation of the fetcher loops in `run_scheduled.run` and
`fetch_all.run`: a step that raises is recorded as (name, message) and the
loop continues with the next step. -/
def collectErrors (outcome : String → Except String Unit) (names : List String) :
    List (String × String) :=
  names.foldl
    (fun errs n =>
      match outcome n with
      | .ok _ => errs
      | .error e => errs ++ [(n, e)])
    []

/-- `run_scheduled.run` with a calendar present: compute the ready and
skipped lists; if no fetcher is ready return `True` at once (no
post-processing); otherwise run every ready fetcher, collecting errors,
then always run post-processing (also collecting its error), and return
whether the error list is empty. -/
def run_scheduled (schedules : List (String × List String)) (today : String)
    (current_time : Nat × Nat) (outcome : String → Except String Unit)
    (postOutcome : Except String Unit) : SchedResult :=
  let rs := get_ready_fetchers schedules today current_time
  if rs.1.isEmpty then
    { ready := rs.1, skipped := rs.2, postRan := false, errors := [], returnValue := true }
  else
    let errs := collectErrors outcome rs.1
    let errs2 :=
      match postOutcome with
      | .ok _ => errs
      | .error e => errs ++ [("Post-processing", e)]
    { ready := rs.1, skipped := rs.2, postRan := true, errors := errs2,
      returnValue := errs2.isEmpty }

/-! ### `scripts/fetch_all.py` — the master orchestrator

The nine steps are (name, what the call would do) pairs; a raising step is
caught, recorded as (name, message), and the loop continues.  `run` returns
`len(errors) == 0`, and `__main__` exits with `sys.exit(0 if success else 1)`. -/

/-- `fetch_all.run`: fold over the steps, catching and recording every
raised exception, and report success iff no step raised. -/
def fetch_all_run (steps : List (String × Except String Unit)) :
    List (String × String) × Bool :=
  let errors :=
    steps.foldl
      (fun errs st =>
        match st.2 with
        | .ok _ => errs
        | .error e => errs ++ [(st.1, e)])
      []
  (errors, errors.isEmpty)

/-- The process exit code of the orchestration entry points:
`sys.exit(0 if success else 1)`. -/
def exitCode (success : Bool) : Nat := if success then 0 else 1

/-! ### Concrete fixtures used by counterexamples and witnesses -/

/-- A `load_json` environment in which exactly one data file exists. -/
def onlyDoc (file : String) (d : Document) : String → Option Document :=
  fun f => if f = file then some d else none

/-- The `HTTPError` a 404 response makes `raise_for_status` raise. -/
def err404 : ReqError := ⟨"404 Client Error", some 404⟩

/-- Attempt outcomes: the first GET yields a 404 response, every later
attempt succeeds. -/
def f404 : Nat → Except ReqError Nat := fun i =>
  match i with
  | 0 => .error err404
  | _ + 1 => .ok 1

/-- Attempt outcomes: every GET fails (5xx responses). -/
def fFail : Nat → Except ReqError Nat := fun i => .error ⟨"boom", some (500 + i)⟩

/-- An M3 document holding a 1-point series and a 3-point series. -/
def d3C : Document := ⟨[
  ⟨"11A_VS", some "Grain and Oilseed Milling - Value of Shipments",
    [⟨"2024-01-01", some 100⟩]⟩,
  ⟨"25B_VS", some "Pharmaceuticals and Medicines - Value of Shipments",
    [⟨"2024-01-01", some 1⟩, ⟨"2024-02-01", some 2⟩, ⟨"2024-03-01", some 3⟩]⟩]⟩

/-- An index entry carrying NAICS code `"3112"` under a chosen name. -/
def cexEntry (nm : String) : Entry :=
  ⟨"X_VS", "X name", "M3", "M3 - Shipments, Inventories & Orders",
   "m3/index.html", "M3 Survey", "m3/m3.json", some "3112", some nm⟩

/-- An index entry carrying the unrelated NAICS code `"3115"`. -/
def cexOther : Entry :=
  ⟨"Y_VS", "Y name", "M3", "M3 - Shipments, Inventories & Orders",
   "m3/index.html", "M3 Survey", "m3/m3.json", some "3115", some "Dairy"⟩

/-- A wholesale document whose only series has an empty display name. -/
def dBad : Document := ⟨[⟨"99_SM", some "", []⟩]⟩

/-- A wholesale document with an ordinary series. -/
def dGood : Document := ⟨[⟨"4231_SM", some "Wholesale Sales 4231", []⟩]⟩

/-- The entry the index builder emits for `dGood`'s series. -/
def goodEntry : Entry :=
  ⟨"4231_SM", "Wholesale Sales 4231", "Wholesale", "Monthly Wholesale Trade",
   "wholesale/sales.html", "Wholesale Sales", "wholesale/wholesale_sales.json",
   some "4231", some "Wholesale Trade"⟩

/-- A small CES establishment → industry map with a mapped code and the
`"-"` sentinel. -/
def cesMapW : List (String × MapEntry) :=
  [("00000001", ⟨"23", "Construction of Buildings"⟩),
   ("00000002", ⟨"-", "Unmapped Industry"⟩)]

/-! ### Helper lemmas -/

theorem lexLe_total (a b : List Char) : lexLe a b = true ∨ lexLe b a = true := by
  induction a generalizing b with
  | nil => exact Or.inl rfl
  | cons x xs ih =>
    cases b with
    | nil => exact Or.inr rfl
    | cons y ys =>
      by_cases h1 : x.toNat < y.toNat
      · exact Or.inl (by simp [lexLe, h1])
      · by_cases h2 : y.toNat < x.toNat
        · exact Or.inr (by simp [lexLe, h2])
        · rcases ih ys with h | h
          · exact Or.inl (by simp [lexLe, h1, h2, h])
          · exact Or.inr (by simp [lexLe, h1, h2, h])

theorem lexLe_trans (a b c : List Char) (hab : lexLe a b = true)
    (hbc : lexLe b c = true) : lexLe a c = true := by
  induction a generalizing b c with
  | nil => rfl
  | cons x xs ih =>
    cases b with
    | nil => simp [lexLe] at hab
    | cons y ys =>
      cases c with
      | nil => simp [lexLe] at hbc
      | cons z zs =>
        simp only [lexLe] at hab hbc ⊢
        by_cases hxy : x.toNat < y.toNat
        · by_cases hyz : y.toNat < z.toNat
          · simp [show x.toNat < z.toNat by omega]
          · by_cases hzy : z.toNat < y.toNat
            · simp [hyz, hzy] at hbc
            · simp [show x.toNat < z.toNat by omega]
        · by_cases hyx : y.toNat < x.toNat
          · simp [hxy, hyx] at hab
          · simp only [hxy, hyx, if_false] at hab
            by_cases hyz : y.toNat < z.toNat
            · simp [show x.toNat < z.toNat by omega]
            · by_cases hzy : z.toNat < y.toNat
              · simp [hyz, hzy] at hbc
              · simp only [hyz, hzy, if_false] at hbc
                have hxz : ¬ x.toNat < z.toNat := by omega
                have hzx : ¬ z.toNat < x.toNat := by omega
                simp only [hxz, hzx, if_false]
                exact ih ys zs hab hbc

theorem sorted_insertionSort_obs (l : List Obs) :
    List.Sorted obsLe (List.insertionSort obsLe l) := by
  haveI : IsTotal Obs obsLe := ⟨fun a b => lexLe_total _ _⟩
  haveI : IsTrans Obs obsLe := ⟨fun _ _ _ hab hbc => lexLe_trans _ _ _ hab hbc⟩
  exact List.sorted_insertionSort obsLe l

theorem collect_eq_filterMap (steps : List (String × Except String Unit))
    (acc : List (String × String)) :
    steps.foldl
        (fun errs st =>
          match st.2 with
          | .ok _ => errs
          | .error e => errs ++ [(st.1, e)])
        acc
      = acc ++ steps.filterMap (fun st =>
          match st.2 with
          | .ok _ => none
          | .error e => some (st.1, e)) := by
  induction steps generalizing acc with
  | nil => simp
  | cons st l ih =>
    rw [List.foldl_cons, List.filterMap_cons]
    cases h2 : st.2 with
    | ok u => simp only [h2, ih]
    | error e => simp [h2, ih]

theorem errors_isEmpty_eq_all (steps : List (String × Except String Unit)) :
    (steps.filterMap (fun st =>
        match st.2 with
        | .ok _ => none
        | .error e => some (st.1, e))).isEmpty
      = steps.all (fun st =>
          match st.2 with
          | .ok _ => true
          | .error _ => false) := by
  induction steps with
  | nil => rfl
  | cons st l ih =>
    rw [List.filterMap_cons]
    cases h2 : st.2 with
    | ok u => simp only [h2, List.all_cons, Bool.true_and, ih]
    | error e => simp [h2]

/-! ### Claims C7 and C8 -/

/-- C7: in a scheduled run with a calendar present, post-processing runs
exactly when the ready-fetcher list for today is non-empty — after the
fetchers whenever at least one was triggered, whatever the fetchers' and
post-processor's outcomes (in particular even if fetchers raised), and
never when none was triggered. -/
theorem claim_C7 (schedules : List (String × List String)) (today : String)
    (now : Nat × Nat) (oc : String → Except String Unit)
    (po : Except String Unit) :
    (run_scheduled schedules today now oc po).postRan
      = !(get_ready_fetchers schedules today now).1.isEmpty := by
  unfold run_scheduled
  by_cases h : (get_ready_fetchers schedules today now).1.isEmpty
  · simp [h]
  · simp [h]

/-- C8: a raising orchestrator step is recorded as a (name, message) pair
with no later step suppressed (the error list is exactly the raising steps,
in order), the run returns true exactly when no step raised, and the
process exit code is 0 on true and 1 on false. -/
theorem claim_C8 (steps : List (String × Except String Unit)) :
    (fetch_all_run steps).1
        = steps.filterMap (fun st =>
            match st.2 with
            | .ok _ => none
            | .error e => some (st.1, e)) ∧
    (fetch_all_run steps).2
        = steps.all (fun st =>
            match st.2 with
            | .ok _ => true
            | .error _ => false) ∧
    exitCode true = 0 ∧ exitCode false = 1 ∧
    exitCode (fetch_all_run steps).2
        = (if (fetch_all_run steps).1.isEmpty then 0 else 1) := by
  have h1 : (fetch_all_run steps).1
      = steps.filterMap (fun st =>
          match st.2 with
          | .ok _ => none
          | .error e => some (st.1, e)) := by
    unfold fetch_all_run
    dsimp only
    rw [collect_eq_filterMap steps []]
    simp
  refine ⟨h1, ?_, rfl, rfl, rfl⟩
  have h2 : (fetch_all_run steps).2 = (fetch_all_run steps).1.isEmpty := rfl
  rw [h2, h1, errors_isEmpty_eq_all]

/-! ### Claim C1 — the M3 resolver -/

/-- C1: resolving `CODE_METRIC` against an M3 → NAICS map splits on the
first underscore and looks `CODE` up: a missing entry yields `(none, none)`;
an entry whose naics value is `"composite"`, `"-"`, or contains `"("` or
`"-"` yields `(none, name)`; any other entry yields the first
comma-separated code and the name.  With the map built by
`build_m3_map.py`, `"11A_VS"` resolves to `("3112", "Grain and Oilseed
Milling")` and `"MTM_SM"` to `(none, "Total Manufacturing")`. -/
theorem claim_C1 :
    (∀ (sid : String) (m : List (String × MapEntry)),
        m.lookup (splitHead '_' sid) = none →
        resolve_naics_m3 sid m = (none, none)) ∧
    (∀ (sid : String) (m : List (String × MapEntry)) (e : MapEntry),
        m.lookup (splitHead '_' sid) = some e →
        (e.naics = "composite" ∨ e.naics = "-" ∨
          e.naics.toList.contains '(' = true ∨ e.naics.toList.contains '-' = true) →
        resolve_naics_m3 sid m = (none, some e.name)) ∧
    (∀ (sid : String) (m : List (String × MapEntry)) (e : MapEntry),
        m.lookup (splitHead '_' sid) = some e →
        ¬(e.naics = "composite" ∨ e.naics = "-" ∨
          e.naics.toList.contains '(' = true ∨ e.naics.toList.contains '-' = true) →
        resolve_naics_m3 sid m = (some (splitHead ',' e.naics), some e.name)) ∧
    resolve_naics_m3 "11A_VS" m3_naics
      = (some "3112", some "Grain and Oilseed Milling") ∧
    resolve_naics_m3 "MTM_SM" m3_naics = (none, some "Total Manufacturing") := by
  refine ⟨?_, ?_, ?_, by decide, by decide⟩
  · intro sid m h
    simp only [resolve_naics_m3, h]
  · intro sid m e h hcond
    simp only [resolve_naics_m3, h]
    rw [if_pos hcond]
  · intro sid m e h hcond
    simp only [resolve_naics_m3, h]
    rw [if_neg hcond]

/-- C1 witness: the three conditional branches instantiated on the real map
at an unmapped code, a composite code, and a plainly mapped code. -/
theorem claim_C1_witness :
    resolve_naics_m3 "QQQ_VS" m3_naics = (none, none) ∧
    resolve_naics_m3 "TCG_VS" m3_naics = (none, some "Capital Goods") ∧
    resolve_naics_m3 "12A_VS" m3_naics = (some "3121", some "Beverage Manufacturing") :=
  ⟨claim_C1.1 "QQQ_VS" m3_naics (by decide),
   claim_C1.2.1 "TCG_VS" m3_naics ⟨"composite", "Capital Goods"⟩ (by decide) (by decide),
   claim_C1.2.2.1 "12A_VS" m3_naics ⟨"3121", "Beverage Manufacturing"⟩ (by decide) (by decide)⟩

/-! ### Claim C5 — the CES resolver -/

/-- C5: the CES resolver returns `(none, none)` when the identifier is
shorter than 11 characters, when characters 3..10 have no map entry, or
when the mapped code is the sentinel `"-"`; otherwise it returns the mapped
(naics, name) pair. -/
theorem claim_C5 :
    (∀ (sid : String) (m : List (String × MapEntry)), strLen sid < 11 →
        resolve_naics_ces sid m = (none, none)) ∧
    (∀ (sid : String) (m : List (String × MapEntry)), 11 ≤ strLen sid →
        m.lookup (strSlice sid 3 11) = none →
        resolve_naics_ces sid m = (none, none)) ∧
    (∀ (sid : String) (m : List (String × MapEntry)) (e : MapEntry),
        11 ≤ strLen sid → m.lookup (strSlice sid 3 11) = some e →
        e.naics = "-" → resolve_naics_ces sid m = (none, none)) ∧
    (∀ (sid : String) (m : List (String × MapEntry)) (e : MapEntry),
        11 ≤ strLen sid → m.lookup (strSlice sid 3 11) = some e →
        e.naics ≠ "-" → resolve_naics_ces sid m = (some e.naics, some e.name)) := by
  refine ⟨?_, ?_, ?_, ?_⟩
  · intro sid m h
    simp only [resolve_naics_ces]
    rw [if_pos h]
  · intro sid m hlen h
    simp only [resolve_naics_ces]
    rw [if_neg (by omega : ¬ strLen sid < 11)]
    simp only [h]
  · intro sid m e hlen h hs
    simp only [resolve_naics_ces]
    rw [if_neg (by omega : ¬ strLen sid < 11)]
    simp only [h]
    rw [if_pos hs]
  · intro sid m e hlen h hs
    simp only [resolve_naics_ces]
    rw [if_neg (by omega : ¬ strLen sid < 11)]
    simp only [h]
    rw [if_neg hs]

/-- C5 witness: the four branches on a small concrete map. -/
theorem claim_C5_witness :
    resolve_naics_ces "CES123" cesMapW = (none, none) ∧
    resolve_naics_ces "CES9999999901" cesMapW = (none, none) ∧
    resolve_naics_ces "CES0000000201" cesMapW = (none, none) ∧
    resolve_naics_ces "CES0000000101" cesMapW
      = (some "23", some "Construction of Buildings") :=
  ⟨claim_C5.1 "CES123" cesMapW (by decide),
   claim_C5.2.1 "CES9999999901" cesMapW (by decide) (by decide),
   claim_C5.2.2.1 "CES0000000201" cesMapW ⟨"-", "Unmapped Industry"⟩
     (by decide) (by decide) rfl,
   claim_C5.2.2.2 "CES0000000101" cesMapW ⟨"23", "Construction of Buildings"⟩
     (by decide) (by decide) (by decide)⟩

/-! ### Claim C2 — the retry helper

The code's `except (requests.RequestException, requests.Timeout)` clause
also catches the `HTTPError` that `raise_for_status` raises on a 4xx
response (`HTTPError` is a `RequestException`), so a 4xx failure is
retried exactly like a transport failure, contrary to the claim. -/

/-- C2 counterexample: with a 404 on the first attempt and success on the
second, `retry_request` retries (sleeping once) and returns the success —
the 4xx does not propagate immediately without retry. -/
theorem claim_C2_counterexample :
    ¬ (∀ (f : Nat → Except ReqError Nat) (e : ReqError),
        f 0 = Except.error e → is4xx e = true →
        retry_request f = (some (Except.error e), [])) := by
  intro h
  have h404 := h f404 err404 rfl rfl
  have hval : retry_request f404 = (some (Except.ok 1), [2]) := rfl
  rw [hval] at h404
  simp [err404] at h404

/-- C2 amended: every failure the GET raises — transport error or HTTP
status error, 4xx included — is retried up to `max_retries = 3` attempts
with linearly increasing backoff `delay * (attempt + 1)` (2s then 4s
at the defaults) between attempts, and the failure of the last attempt is
re-raised; a success stops the loop at once. -/
theorem claim_C2_amended {α : Type} (f : Nat → Except ReqError α) :
    (∀ r, f 0 = Except.ok r → retry_request f = (some (Except.ok r), [])) ∧
    (∀ e0 r, f 0 = Except.error e0 → f 1 = Except.ok r →
        retry_request f = (some (Except.ok r), [2])) ∧
    (∀ e0 e1 r, f 0 = Except.error e0 → f 1 = Except.error e1 →
        f 2 = Except.ok r → retry_request f = (some (Except.ok r), [2, 4])) ∧
    (∀ e0 e1 e2, f 0 = Except.error e0 → f 1 = Except.error e1 →
        f 2 = Except.error e2 →
        retry_request f = (some (Except.error e2), [2, 4])) := by
  have hr : List.range 3 = [0, 1, 2] := rfl
  refine ⟨?_, ?_, ?_, ?_⟩
  · intro r h0
    simp [retry_request, hr, retryGo, h0]
  · intro e0 r h0 h1
    simp [retry_request, hr, retryGo, h0, h1]
  · intro e0 e1 r h0 h1 h2
    simp [retry_request, hr, retryGo, h0, h1, h2]
  · intro e0 e1 e2 h0 h1 h2
    simp [retry_request, hr, retryGo, h0, h1, h2]

/-- C2 witness: three straight failures re-raise the third failure after
sleeping 2s and 4s; a 404 then a success returns the success after one
2s sleep. -/
theorem claim_C2_witness :
    retry_request fFail = (some (Except.error ⟨"boom", some 502⟩), [2, 4]) ∧
    retry_request f404 = (some (Except.ok 1), [2]) :=
  ⟨(claim_C2_amended fFail).2.2.2 ⟨"boom", some 500⟩ ⟨"boom", some 501⟩
      ⟨"boom", some 502⟩ rfl rfl rfl,
   (claim_C2_amended f404).2.1 err404 1 rfl rfl⟩

/-! ### Claim C6 — fetcher output invariants -/

/-- C6: every series the shared series-list construction of `fetch_m3.run`
and `fetch_qss.run` emits has at least 2 observation points (shorter
grouped series are dropped before writing) and its data is sorted
ascending by date. -/
theorem claim_C6 (sm : List (String × SeriesInfo)) (s : Series)
    (hs : s ∈ buildSeriesList sm) :
    2 ≤ s.data.length ∧ List.Sorted obsLe s.data := by
  simp only [buildSeriesList, List.mem_filterMap] at hs
  obtain ⟨p, hp, hf⟩ := hs
  by_cases hlen : (List.insertionSort obsLe p.2.2.data).length < 2
  · rw [if_pos hlen] at hf
    cases hf
  · rw [if_neg hlen] at hf
    have heq := Option.some.inj hf
    subst heq
    exact ⟨Nat.le_of_not_lt hlen, sorted_insertionSort_obs _⟩

/-- C6 witness: a single grouped series with two out-of-order points is
emitted with its data sorted and of length 2. -/
theorem claim_C6_witness :
    2 ≤ (Series.mk "a_SM" "A" 0
          [⟨"2024-01-01", some 5⟩, ⟨"2024-02-01", none⟩]).data.length ∧
    List.Sorted obsLe (Series.mk "a_SM" "A" 0
          [⟨"2024-01-01", some 5⟩, ⟨"2024-02-01", none⟩]).data :=
  claim_C6 [("a_SM", ⟨"A", [⟨"2024-02-01", none⟩, ⟨"2024-01-01", some 5⟩]⟩)]
    (Series.mk "a_SM" "A" 0 [⟨"2024-01-01", some 5⟩, ⟨"2024-02-01", none⟩])
    (by decide)

/-! ### Index-builder helper lemmas -/

theorem runEntries_onlyDoc_m3 (d : Document) (cm mm : List (String × MapEntry)) :
    runEntries (onlyDoc "m3/m3.json" d) cm mm
      = d.series.flatMap (processSeries "M3" "m3/m3.json" m3Pages cm mm) := by
  simp [runEntries, DATA_FILE_PAGES, processFile, onlyDoc, m3Pages, pg]

theorem flatMap_m3_ids (cm mm : List (String × MapEntry)) (file : String)
    (l : List RawSeries) :
    (l.flatMap (processSeries "M3" file m3Pages cm mm)).map (fun e => e.id)
      = (l.filter (fun s => !(m3ExcludeMatch s.id))).map (fun s => s.id) := by
  induction l with
  | nil => rfl
  | cons s rest ih =>
    rw [List.flatMap_cons, List.map_append, ih, List.filter_cons]
    by_cases h : m3ExcludeMatch s.id = true
    · have hps : processSeries "M3" file m3Pages cm mm s = [] := by
        simp [processSeries, h]
      rw [hps]
      simp [h]
    · have hps : (processSeries "M3" file m3Pages cm mm s).map (fun e => e.id)
          = [s.id] := by
        simp [processSeries, h, m3Pages, mkEntry, pg]
      rw [hps, if_pos (by simp [h])]
      simp

/-! ### Claim C3 — the index builder applies no observation-count filter -/

/-- C3 counterexample: reading an M3 document that still contains a 1-point
series and a 3-point series, the index builder emits entries for BOTH
series (one per declared page of the file), not for the 3-point one alone:
it never looks at the observation counts. -/
theorem claim_C3_counterexample :
    d3C.series.map (fun s => (s.id, s.data.length)) = [("11A_VS", 1), ("25B_VS", 3)] ∧
    (runEntries (onlyDoc "m3/m3.json" d3C) [] m3_naics).map (fun e => e.id)
      = ["11A_VS", "25B_VS"] ∧
    ¬ ((runEntries (onlyDoc "m3/m3.json" d3C) [] m3_naics).map (fun e => e.id)
        = ["25B_VS"]) := by
  refine ⟨by decide, by decide, by decide⟩

/-- C3 amended: whatever the observation counts of its series, the index
builder emits, for the series of the M3 data file, exactly one entry per
non-excluded series per declared display page (the M3 file declares one
page), in document order; a 1-point series therefore yields an entry too —
the sub-2-point filtering happens only when the fetcher writes the
document, not in the index builder. -/
theorem claim_C3_amended (d : Document) (cm mm : List (String × MapEntry)) :
    (runEntries (onlyDoc "m3/m3.json" d) cm mm).map (fun e => e.id)
      = (d.series.filter (fun s => !(m3ExcludeMatch s.id))).map (fun s => s.id) := by
  rw [runEntries_onlyDoc_m3, flatMap_m3_ids]

/-! ### Claim C9 — the M3 exclusion filter -/

/-- C9: an M3 series whose identifier contains `"_MPC"` or `"_IS"` (the
`M3_EXCLUDE` pattern) is dropped entirely — the builder emits no entry for
it on any page — while every other M3 series yields one entry carrying its
identifier per declared page; consequently no entry built from the M3 data
file has an identifier matching the pattern. -/
theorem claim_C9 :
    (∀ (dataFile : String) (pages : List PageInfo)
        (cm mm : List (String × MapEntry)) (s : RawSeries),
        m3ExcludeMatch s.id = true →
        processSeries "M3" dataFile pages cm mm s = []) ∧
    (∀ (dataFile : String) (pages : List PageInfo)
        (cm mm : List (String × MapEntry)) (s : RawSeries),
        m3ExcludeMatch s.id = false →
        (processSeries "M3" dataFile pages cm mm s).map (fun e => e.id)
          = pages.map (fun _ => s.id)) ∧
    (∀ (d : Document) (cm mm : List (String × MapEntry)),
        (runEntries (onlyDoc "m3/m3.json" d) cm mm).all
            (fun e => !(m3ExcludeMatch e.id)) = true) := by
  refine ⟨?_, ?_, ?_⟩
  · intro dataFile pages cm mm s h
    simp [processSeries, h]
  · intro dataFile pages cm mm s h
    simp only [processSeries]
    split
    · case isTrue hc => exact absurd hc.2 (by simp [h])
    · rw [List.map_map]
      exact List.map_congr_left (fun p _ => rfl)
  · intro d cm mm
    rw [List.all_eq_true]
    intro e he
    have hid : e.id ∈ (runEntries (onlyDoc "m3/m3.json" d) cm mm).map (fun x => x.id) :=
      List.mem_map_of_mem _ he
    rw [runEntries_onlyDoc_m3, flatMap_m3_ids] at hid
    rw [List.mem_map] at hid
    obtain ⟨s, hsf, hsid⟩ := hid
    rw [List.mem_filter] at hsf
    rw [← hsid]
    exact hsf.2

/-- C9 witness: a `_MPC` percent-change series yields nothing; a plain
`_VS` series yields one entry with its own identifier per page. -/
theorem claim_C9_witness :
    processSeries "M3" "m3/m3.json" m3Pages [] m3_naics ⟨"MTM_MPCNO", some "x", []⟩ = [] ∧
    (processSeries "M3" "m3/m3.json" m3Pages [] m3_naics
        ⟨"11A_VS", some "x", []⟩).map (fun e => e.id)
      = m3Pages.map (fun _ => "11A_VS") :=
  ⟨claim_C9.1 "m3/m3.json" m3Pages [] m3_naics ⟨"MTM_MPCNO", some "x", []⟩ (by decide),
   claim_C9.2.1 "m3/m3.json" m3Pages [] m3_naics ⟨"11A_VS", some "x", []⟩ (by decide)⟩

/-! ### Name-table helper lemmas (claim C4) -/

theorem lookup_nameStep (names : List (String × String)) (e : Entry) (c : String) :
    (nameStep names e).lookup c = (names.lookup c).or (entryContribution e c) := by
  unfold nameStep entryContribution
  cases hn : e.naics with
  | none => simp
  | some n =>
    cases hnm : e.naicsName with
    | none => simp
    | some nm =>
      dsimp only
      by_cases hcond : n ≠ "" ∧ nm ≠ "" ∧ (names.lookup n).isNone
      · rw [if_pos hcond, List.lookup_append]
        by_cases hcn : n = c
        · subst hcn
          rw [if_pos ⟨rfl, hcond.1, hcond.2.1⟩]
          have h3 : names.lookup n = none := Option.eq_none_iff_forall_not_mem.mpr
            (fun a ha => by
              rw [Option.isNone_iff_eq_none] at hcond
              rw [hcond.2.2] at ha
              cases ha)
          rw [h3]
          simp [List.lookup_cons]
        · rw [if_neg (fun hc => hcn hc.1)]
          have hsingle : List.lookup c [(n, nm)] = none := by
            have hbeq : (c == n) = false := beq_eq_false_iff_ne.mpr (fun hcc => hcn hcc.symm)
            simp [List.lookup_cons, hbeq]
          rw [hsingle]
      · rw [if_neg hcond]
        by_cases hc2 : n = c ∧ n ≠ "" ∧ nm ≠ ""
        · rw [if_pos hc2]
          obtain ⟨hnc, hne, hnme⟩ := hc2
          subst hnc
          have hsome : ¬ (names.lookup n).isNone = true :=
            fun hC => hcond ⟨hne, hnme, hC⟩
          cases hl : names.lookup n with
          | none => rw [hl] at hsome; exact absurd rfl hsome
          | some v => rfl
        · rw [if_neg hc2, Option.or_none]

theorem lookup_foldl_nameStep (l : List Entry) (names : List (String × String))
    (c : String) :
    ((l.foldl nameStep names).lookup c)
      = (names.lookup c).or (l.findSome? (fun e => entryContribution e c)) := by
  induction l generalizing names with
  | nil => simp
  | cons e l ih =>
    rw [List.foldl_cons, ih, lookup_nameStep, Option.or_assoc]
    congr 1
    cases hg : entryContribution e c with
    | none => simp [List.findSome?_cons, hg]
    | some v => simp [List.findSome?_cons, hg]

theorem entryContribution_eq_some {e : Entry} {c v : String}
    (h : entryContribution e c = some v) :
    e.naics = some c ∧ e.naicsName = some v := by
  unfold entryContribution at h
  cases hn : e.naics with
  | none => rw [hn] at h; cases h
  | some n =>
    cases hnm : e.naicsName with
    | none => rw [hn, hnm] at h; cases h
    | some nm =>
      rw [hn, hnm] at h
      dsimp only at h
      by_cases hc : n = c ∧ n ≠ "" ∧ nm ≠ ""
      · rw [if_pos hc] at h
        exact ⟨by rw [hc.1], h⟩
      · rw [if_neg hc] at h
        cases h

theorem findSome?_contribution_perm {l1 l2 : List Entry} (hp : l1.Perm l2)
    (hcons : ∀ e1 ∈ l1, ∀ e2 ∈ l1, e1.naics = e2.naics → e1.naicsName = e2.naicsName)
    (c : String) :
    l1.findSome? (fun e => entryContribution e c)
      = l2.findSome? (fun e => entryContribution e c) := by
  cases h1 : l1.findSome? (fun e => entryContribution e c) with
  | none =>
    rw [List.findSome?_eq_none_iff] at h1
    symm
    rw [List.findSome?_eq_none_iff]
    intro x hx
    exact h1 x (hp.mem_iff.mpr hx)
  | some v =>
    rw [List.findSome?_eq_some_iff] at h1
    obtain ⟨l1a, a, l1b, hsplit, ha, _⟩ := h1
    have hal1 : a ∈ l1 := by
      rw [hsplit]
      exact List.mem_append_right _ (List.mem_cons_self _ _)
    cases h2 : l2.findSome? (fun e => entryContribution e c) with
    | none =>
      rw [List.findSome?_eq_none_iff] at h2
      have hnone := h2 a (hp.mem_iff.mp hal1)
      rw [ha] at hnone
      cases hnone
    | some w =>
      rw [List.findSome?_eq_some_iff] at h2
      obtain ⟨l2a, b, l2b, hsplit2, hb, _⟩ := h2
      have hbl1 : b ∈ l1 := hp.mem_iff.mpr (by
        rw [hsplit2]
        exact List.mem_append_right _ (List.mem_cons_self _ _))
      obtain ⟨han, hann⟩ := entryContribution_eq_some ha
      obtain ⟨hbn, hbnn⟩ := entryContribution_eq_some hb
      have hnames := hcons a hal1 b hbl1 (by rw [han, hbn])
      rw [hann, hbnn] at hnames
      exact hnames

/-! ### Claim C4 — the code → name table under input reordering -/

/-- C4 counterexample: two entries sharing NAICS code `"3112"` under
different names; swapping them changes which name the first-write-wins
table assigns to the code, so the construction is not invariant under
permutation of the entry list. -/
theorem claim_C4_counterexample :
    ¬ (∀ (l1 l2 : List Entry), l1.Perm l2 →
        ∀ c, (build_naics_names l1).lookup c = (build_naics_names l2).lookup c) := by
  intro h
  have hp : [cexEntry "Name A", cexEntry "Name B"].Perm
      [cexEntry "Name B", cexEntry "Name A"] :=
    List.Perm.swap (cexEntry "Name B") (cexEntry "Name A") []
  exact absurd (h _ _ hp "3112") (by decide)

/-- C4 amended: the table construction is invariant under permutation of
the entry list whenever any two entries carrying the same naics code carry
the same naicsName (the static sector table always takes priority, and
first-write-wins then has nothing left to break ties on). -/
theorem claim_C4_amended (l1 l2 : List Entry) (hp : l1.Perm l2)
    (hcons : ∀ e1 ∈ l1, ∀ e2 ∈ l1, e1.naics = e2.naics → e1.naicsName = e2.naicsName)
    (c : String) :
    (build_naics_names l1).lookup c = (build_naics_names l2).lookup c := by
  unfold build_naics_names
  rw [lookup_foldl_nameStep, lookup_foldl_nameStep,
    findSome?_contribution_perm hp hcons c]

/-- C4 witness: two consistent entries with distinct codes, permuted. -/
theorem claim_C4_witness :
    (build_naics_names [cexEntry "Name A", cexOther]).lookup "3115"
      = (build_naics_names [cexOther, cexEntry "Name A"]).lookup "3115" :=
  claim_C4_amended [cexEntry "Name A", cexOther] [cexOther, cexEntry "Name A"]
    (List.Perm.swap cexOther (cexEntry "Name A") []) (by decide) "3115"

/-! ### Classification-field helper lemmas (claim C10) -/

theorem pyTruthy_isSome {o : Option String} (h : pyTruthy o = true) :
    o.isSome = true := by
  cases o with
  | none => exact absurd h (by decide)
  | some v => rfl

theorem pyTruthy_ne_empty {o : Option String} (h : pyTruthy o = true) :
    o.getD "" ≠ "" := by
  intro he
  rw [pyTruthy, he] at h
  exact absurd h (by decide)

theorem lookup_mem_values {α β : Type} [BEq α] {l : List (α × β)} {k : α} {v : β}
    (h : List.lookup k l = some v) : ∃ p ∈ l, p.2 = v := by
  induction l with
  | nil => cases h
  | cons p rest ih =>
    obtain ⟨k1, v1⟩ := p
    rw [List.lookup_cons] at h
    by_cases hbeq : (k == k1) = true
    · rw [hbeq] at h
      exact ⟨(k1, v1), List.mem_cons_self _ _, Option.some.inj h⟩
    · rw [Bool.not_eq_true] at hbeq
      rw [hbeq] at h
      obtain ⟨q, hq, hv⟩ := ih h
      exact ⟨q, List.mem_cons_of_mem _ hq, hv⟩

theorem sector_lookup_ne_empty {k v : String}
    (h : NAICS_SECTORS.lookup k = some v) : v ≠ "" := by
  obtain ⟨p, hp, hv⟩ := lookup_mem_values h
  have hall : NAICS_SECTORS.all (fun q => decide (q.2 ≠ "")) = true := by decide
  have hne := of_decide_eq_true (List.all_eq_true.mp hall p hp)
  rw [← hv]
  exact hne

theorem fallbackBase_ne {resolved : Option String} {name : String} (h : name ≠ "") :
    fallbackBase resolved name ≠ "" := by
  unfold fallbackBase
  by_cases ht : pyTruthy resolved = true
  · rw [if_pos ht]
    exact pyTruthy_ne_empty ht
  · rw [if_neg ht]
    exact h

theorem fallbackName_ne {naics resolved : Option String} {name : String}
    (h : name ≠ "") : fallbackName naics resolved name ≠ "" := by
  unfold fallbackName
  by_cases hc : pyTruthy naics = true ∧ fallbackBase resolved name = name
  · rw [if_pos hc]
    cases hl : NAICS_SECTORS.lookup (strTake (naics.getD "") 2) with
    | none => exact fallbackBase_ne h
    | some sn => exact sector_lookup_ne_empty hl
  · rw [if_neg hc]
    exact fallbackBase_ne h

theorem resolveEntryFields_isSome (sec : String)
    (cm mm : List (String × MapEntry)) (sid name : String) :
    (resolveEntryFields sec cm mm sid name).1.isSome
      = (resolveEntryFields sec cm mm sid name).2.isSome := by
  simp only [resolveEntryFields]
  by_cases ht : pyTruthy (resolveBySection sec cm mm sid).1 = true
  · rw [if_pos ht]
    rw [pyTruthy_isSome ht]
    rfl
  · rw [if_neg ht]

theorem resolveEntryFields_snd_ne {sec : String}
    {cm mm : List (String × MapEntry)} {sid name : String}
    (hname : name ≠ "") {v : String}
    (hv : (resolveEntryFields sec cm mm sid name).2 = some v) : v ≠ "" := by
  simp only [resolveEntryFields] at hv
  by_cases ht : pyTruthy (resolveBySection sec cm mm sid).1 = true
  · rw [if_pos ht] at hv
    rw [← Option.some.inj hv]
    exact fallbackName_ne hname
  · rw [if_neg ht] at hv
    cases hv

theorem mem_processSeries {sec dataFile : String} {pages : List PageInfo}
    {cm mm : List (String × MapEntry)} {s : RawSeries} {e : Entry}
    (h : e ∈ processSeries sec dataFile pages cm mm s) :
    e.name = s.name.getD s.id ∧
    e.naics = (resolveEntryFields sec cm mm s.id (s.name.getD s.id)).1 ∧
    e.naicsName = (resolveEntryFields sec cm mm s.id (s.name.getD s.id)).2 := by
  simp only [processSeries] at h
  by_cases hx : sec = "M3" ∧ m3ExcludeMatch s.id = true
  · rw [if_pos hx] at h
    cases h
  · rw [if_neg hx] at h
    rw [List.mem_map] at h
    obtain ⟨p, hp, he⟩ := h
    rw [← he]
    exact ⟨rfl, rfl, rfl⟩

/-! ### Claim C10 — the optional classification fields of an entry -/

/-- C10 counterexample: a wholesale series with an empty display name
yields an entry that carries a resolved NAICS code together with an EMPTY
naicsName — the fallback chain bottoms out at the empty series name when
the code's 2-digit sector is not in the sector table. -/
theorem claim_C10_counterexample :
    ¬ (∀ e ∈ runEntries (onlyDoc "wholesale/wholesale_sales.json" dBad) [] [],
        e.naics.isSome = true → e.naicsName ≠ some "") := by
  decide

/-- C10 amended: every emitted entry carries `naics` and `naicsName` either
both or neither; and whenever the entry's display name is non-empty, a
carried `naicsName` is non-empty (the fallback chain ends at the series'
own name, or at a 2-digit sector name, both non-empty in that case). -/
theorem claim_C10_amended (docs : String → Option Document)
    (cm mm : List (String × MapEntry)) (e : Entry)
    (he : e ∈ runEntries docs cm mm) :
    (e.naics.isSome = e.naicsName.isSome) ∧
    (e.name ≠ "" → ∀ v, e.naicsName = some v → v ≠ "") := by
  simp only [runEntries, List.mem_flatMap] at he
  obtain ⟨row, _hrow, he⟩ := he
  simp only [processFile] at he
  rcases hdoc : docs row.1 with _ | d
  · rw [hdoc] at he
    simp at he
  · rw [hdoc] at he
    simp only [List.mem_flatMap] at he
    obtain ⟨s, _hs, he⟩ := he
    obtain ⟨hn, h1, h2⟩ := mem_processSeries he
    constructor
    · rw [h1, h2, resolveEntryFields_isSome]
    · intro hne v hv
      rw [h2] at hv
      rw [hn] at hne
      exact resolveEntryFields_snd_ne hne hv

/-- C10 witness: the entry built for an ordinary wholesale series carries
both fields, and its carried name is non-empty. -/
theorem claim_C10_witness :
    (goodEntry.naics.isSome = goodEntry.naicsName.isSome) ∧
    (goodEntry.name ≠ "" → ∀ v, goodEntry.naicsName = some v → v ≠ "") :=
  claim_C10_amended (onlyDoc "wholesale/wholesale_sales.json" dGood) [] []
    goodEntry (by decide)
